import Mathlib

/-!
Verification of the continuous-time ring all-reduce SMT model
(`continuous_model.py`).  The z3 constraint system built by `make_solver`
is shallowly embedded: a satisfying assignment of the solver's symbolic
variables becomes a structure of rational/integer valued functions, and
each batch of constraints the Python code adds becomes a `Prop` over such
an assignment.  Real-valued z3 variables are modelled as `ℚ` (the model is
purely linear rational arithmetic, so satisfiability over ℝ and ℚ agree),
`s.Int` variables as `ℤ`.
-/

/-- Mirrors `Config` in `continuous_model.py`.  Neighbor edges are pairs of
(ring, node) indices; they are Python `int`s, hence `ℤ` (Python list
indexing accepts negative indices). -/
structure Config where
  num_timesteps : Nat
  num_rings : Nat
  num_nodes_per_ring : Nat
  neighbors : List ((Int × Int) × (Int × Int))

/-- The default `Config()`: 5 timesteps, 3 rings, 3 nodes per ring,
neighbors `[((0, 0), (1, 0)), ((1, 1), (2, 1))]`. -/
def defaultConfig : Config :=
  ⟨5, 3, 3, [((0, 0), (1, 0)), ((1, 1), (2, 1))]⟩

/-- Python list indexing `xs[i]` for a list of length `len`: indices in
`[0, len)` are used directly, indices in `[-len, 0)` wrap to `len + i`,
anything else raises `IndexError` (here: `none`). -/
def pyCanon (len : Nat) (i : Int) : Option Nat :=
  if 0 ≤ i ∧ i < (len : Int) then some i.toNat
  else if -(len : Int) ≤ i ∧ i < 0 then some ((len : Int) + i).toNat
  else none

/-- Whether Python indexing accepts index `i` for a list of length `len`. -/
def pyIdxOk (len : Nat) (i : Int) : Bool :=
  (pyCanon len i).isSome

/-- Whether all four indices of a neighbor edge are accepted by Python list
indexing (lines 209-211 of `continuous_model.py` index
`rings[r1].nodes[n1]` and `rings[r2].nodes[n2]`). -/
def edgeIndicesOk (c : Config) (e : (Int × Int) × (Int × Int)) : Bool :=
  pyIdxOk c.num_rings e.1.1 && pyIdxOk c.num_nodes_per_ring e.1.2 &&
  pyIdxOk c.num_rings e.2.1 && pyIdxOk c.num_nodes_per_ring e.2.2

/-- One neighbor-edge assignment (lines 210-211): node `(r1, n1)` stores the
raw tuple `(r2, n2)` and node `(r2, n2)` stores the raw tuple `(r1, n1)`,
the second store happening after (and so overriding) the first.  Edges
whose indices Python would reject leave the map unchanged (Python would
have raised instead; such a model is never built). -/
def applyEdge (c : Config) (m : Nat × Nat → Option (Int × Int))
    (e : (Int × Int) × (Int × Int)) : Nat × Nat → Option (Int × Int) :=
  match pyCanon c.num_rings e.1.1, pyCanon c.num_nodes_per_ring e.1.2,
        pyCanon c.num_rings e.2.1, pyCanon c.num_nodes_per_ring e.2.2 with
  | some r1, some n1, some r2, some n2 =>
      fun p =>
        if p = (r2, n2) then some (e.1.1, e.1.2)
        else if p = (r1, n1) then some (e.2.1, e.2.2)
        else m p
  | _, _, _, _ => m

/-- The `neighbor` field of each node after the assignment loop of
`make_solver` (edges processed in list order; later assignments win). -/
def neighborMap (c : Config) : Nat × Nat → Option (Int × Int) :=
  c.neighbors.foldl (applyEdge c) (fun _ => none)

/-- The node `(ro, no)` whose shared-bottleneck arbitration node `(r, n)`
must encode, if any: present iff `(r, n)` has a neighbor and the check
`r > nt2.neighbor[0]` (line 162) succeeds, with the raw stored indices
resolved by Python list indexing (lines 163-164). -/
def arbDuty (c : Config) (r n : Nat) : Option (Nat × Nat) :=
  match neighborMap c (r, n) with
  | none => none
  | some q =>
      if q.1 < (r : Int) then
        match pyCanon c.num_rings q.1, pyCanon c.num_nodes_per_ring q.2 with
        | some ro, some no => some (ro, no)
        | _, _ => none
      else none

/-- The index of the ring predecessor `nodes[n-1]` of `nodes[n]` in a ring
of `numNodes` nodes (Python `nodes[-1]` is the last node, so the ring
wraps). -/
def prevIdx (numNodes n : Nat) : Nat :=
  (n + numNodes - 1) % numNodes

/-- A (candidate satisfying) assignment of all symbolic variables of the
model.  Triple-indexed fields are indexed by (timestep, ring, node).
`sum_backprop_cap` is the auxiliary variable `backprop_cap{t2},{r},{n}`
allocated inside `tick` (only indices with timestep ≥ 1 are used). -/
structure Asn where
  time : Nat → ℚ
  tot_backprop : Nat → ℚ
  tot_size : Nat → ℚ
  backprop : Nat → Nat → Nat → ℚ
  sum_sent : Nat → Nat → Nat → ℚ
  broad_sent : Nat → Nat → Nat → ℚ
  ready_to_send : Nat → Nat → Nat → ℚ
  tot_data_sent : Nat → Nat → Nat → ℚ
  round : Nat → Nat → Nat → ℤ
  sum_backprop_cap : Nat → Nat → Nat → ℚ

/-- `delta_t = t2.time - t1.time` of `tick t2`. -/
def deltaT (a : Asn) (t2 : Nat) : ℚ :=
  a.time t2 - a.time (t2 - 1)

/-- The `new_round` guard of `tick` (lines 85-87): the node finished
backprop and both send counters are at their maxima at `t1 = t2 - 1`. -/
def newRound (a : Asn) (r n t1 : Nat) : Prop :=
  a.backprop t1 r n = a.tot_backprop r ∧
  a.sum_sent t1 r n = a.tot_size r ∧
  a.broad_sent t1 r n = a.tot_size r

/-- The receive-cap expression of `tick` (lines 114-121), used both as
`sum_recv_cap` (with `prevSent` the predecessor's `sum_sent`) and as
`broad_recv_cap` (with the predecessor's `broad_sent`); `roundDiff` is
`node_round_diff = prev.round - my.round` at `t1`. -/
def recvCap (totSize : ℚ) (numNodes : Nat) (roundDiff : ℤ) (prevSent : ℚ) : ℚ :=
  totSize / (numNodes : ℚ) +
    (if 0 < roundDiff then totSize else if roundDiff < 0 then 0 else prevSent)

/-- The shared-bottleneck arbitration constraints node `(r, n)` emits for
itself and its neighbor `(ro, no)` (lines 166-201). -/
def arbSat (a : Asn) (t2 : Nat) (r n ro no : Nat) : Prop :=
  ((a.ready_to_send t2 r n + a.ready_to_send t2 ro no < deltaT a t2 →
      a.tot_data_sent t2 r n = a.ready_to_send t2 r n ∧
      a.tot_data_sent t2 ro no = a.ready_to_send t2 ro no) ∧
   (¬ (a.ready_to_send t2 r n + a.ready_to_send t2 ro no < deltaT a t2) →
      a.tot_data_sent t2 r n + a.tot_data_sent t2 ro no = deltaT a t2 ∧
      a.tot_data_sent t2 r n ≤ a.ready_to_send t2 r n ∧
      a.tot_data_sent t2 ro no ≤ a.ready_to_send t2 ro no ∧
      (a.sum_sent (t2-1) r n + a.broad_sent (t2-1) r n >
         a.sum_sent (t2-1) ro no + a.broad_sent (t2-1) ro no →
         a.tot_data_sent t2 r n > a.tot_data_sent t2 ro no) ∧
      (a.sum_sent (t2-1) r n + a.broad_sent (t2-1) r n <
         a.sum_sent (t2-1) ro no + a.broad_sent (t2-1) ro no →
         a.tot_data_sent t2 r n < a.tot_data_sent t2 ro no) ∧
      (a.sum_sent (t2-1) r n + a.broad_sent (t2-1) r n =
         a.sum_sent (t2-1) ro no + a.broad_sent (t2-1) ro no →
         a.tot_data_sent t2 r n = a.tot_data_sent t2 ro no))) ∧
  (a.ready_to_send t2 ro no + a.ready_to_send t2 r n ≥ deltaT a t2 ∨
   a.ready_to_send t2 ro no + a.ready_to_send t2 r n = 0) ∧
  (a.ready_to_send t2 r n ≥ deltaT a t2 ∨ a.ready_to_send t2 r n = 0) ∧
  (a.ready_to_send t2 ro no ≥ deltaT a t2 ∨ a.ready_to_send t2 ro no = 0)

/-- All constraints `tick` emits for node `(r, n)` at step `t2` (`t1` is
`t2 - 1`): round/backprop evolution (lines 84-102), the `sum_backprop_cap`
constraints (lines 106-110), the ready/sent phase update (lines 123-147),
and the transmission constraints (lines 149-201).  Nodes with a neighbor
on a lower-numbered ring emit the arbitration block; nodes with a neighbor
on a higher-numbered ring emit nothing here (their partner does). -/
def nodeTickSat (c : Config) (a : Asn) (t2 r n : Nat) : Prop :=
  ((newRound a r n (t2-1) →
      a.round t2 r n = a.round (t2-1) r n + 1 ∧
      a.backprop t2 r n = min (deltaT a t2) (a.tot_backprop r) ∧
      a.time t2 = a.time (t2-1)) ∧
   (¬ newRound a r n (t2-1) →
      a.round t2 r n = a.round (t2-1) r n ∧
      a.backprop t2 r n =
        min (a.backprop (t2-1) r n + deltaT a t2) (a.tot_backprop r))) ∧
  ((a.backprop t2 r n ≥ a.tot_backprop r →
      a.sum_backprop_cap t2 r n = a.tot_size r) ∧
   a.sum_backprop_cap t2 r n ≥ 0) ∧
  ((newRound a r n (t2-1) →
      a.sum_sent t2 r n = 0 ∧ a.broad_sent t2 r n = 0 ∧
      a.ready_to_send t2 r n = 0) ∧
   (¬ newRound a r n (t2-1) →
      (a.sum_sent (t2-1) r n < a.tot_size r →
         a.ready_to_send t2 r n =
           max 0 (min (recvCap (a.tot_size r) c.num_nodes_per_ring
                         (a.round (t2-1) r (prevIdx c.num_nodes_per_ring n) -
                          a.round (t2-1) r n)
                         (a.sum_sent (t2-1) r (prevIdx c.num_nodes_per_ring n)))
                      (min (a.sum_backprop_cap t2 r n) (a.tot_size r)) -
                   a.sum_sent (t2-1) r n) ∧
         a.sum_sent t2 r n = a.sum_sent (t2-1) r n + a.tot_data_sent t2 r n ∧
         a.broad_sent t2 r n = a.broad_sent (t2-1) r n) ∧
      (¬ (a.sum_sent (t2-1) r n < a.tot_size r) →
         a.ready_to_send t2 r n =
           max 0 (min (recvCap (a.tot_size r) c.num_nodes_per_ring
                         (a.round (t2-1) r (prevIdx c.num_nodes_per_ring n) -
                          a.round (t2-1) r n)
                         (a.broad_sent (t2-1) r (prevIdx c.num_nodes_per_ring n)))
                      (a.tot_size r) -
                   a.broad_sent (t2-1) r n) ∧
         a.broad_sent t2 r n = a.broad_sent (t2-1) r n + a.tot_data_sent t2 r n ∧
         a.sum_sent t2 r n = a.sum_sent (t2-1) r n))) ∧
  (neighborMap c (r, n) = none →
     a.tot_data_sent t2 r n = min (a.ready_to_send t2 r n) (deltaT a t2) ∧
     (a.ready_to_send t2 r n ≥ deltaT a t2 ∨ a.ready_to_send t2 r n = 0)) ∧
  (∀ ro no, arbDuty c r n = some (ro, no) → arbSat a t2 r n ro no)

/-- All constraints added by `tick t2` (`t2 ≥ 1`). -/
def tickSat (c : Config) (a : Asn) (t2 : Nat) : Prop :=
  deltaT a t2 ≥ 0 ∧
  ∀ r, r < c.num_rings → ∀ n, n < c.num_nodes_per_ring →
    nodeTickSat c a t2 r n

/-- The initial conditions of `make_solver` at timestep 0
(lines 224-250): broadcast gating, the received-data bound against the
ring predecessor, and the round-skew conditions. -/
def initSat (c : Config) (a : Asn) : Prop :=
  ∀ r, r < c.num_rings → ∀ n, n < c.num_nodes_per_ring →
    (a.broad_sent 0 r n > 0 →
       a.sum_sent 0 r n = a.tot_size r ∧
       a.backprop 0 r n = a.tot_backprop r) ∧
    a.sum_sent 0 r n ≤
      a.sum_sent 0 r (prevIdx c.num_nodes_per_ring n) +
        a.tot_size r / (c.num_nodes_per_ring : ℚ) ∧
    a.broad_sent 0 r n ≤
      a.broad_sent 0 r (prevIdx c.num_nodes_per_ring n) +
        a.tot_size r / (c.num_nodes_per_ring : ℚ) ∧
    ∀ n2, n2 < c.num_nodes_per_ring →
      a.round 0 r n ≠ a.round 0 r n2 →
      (a.round 0 r n2 = a.round 0 r n + 1 ∧
         a.sum_sent 0 r n2 ≤ a.tot_size r / (c.num_nodes_per_ring : ℚ)) ∨
      (a.round 0 r n2 = a.round 0 r n - 1 ∧
         a.sum_sent 0 r n ≤ a.tot_size r / (c.num_nodes_per_ring : ℚ))

/-- The global well-formedness constraints of `make_solver`
(lines 252-264): positive totals and per-state bounds at every
timestep. -/
def boundsSat (c : Config) (a : Asn) : Prop :=
  ∀ r, r < c.num_rings →
    a.tot_size r > 0 ∧ a.tot_backprop r > 0 ∧
    ∀ t, t < c.num_timesteps → ∀ n, n < c.num_nodes_per_ring →
      a.backprop t r n ≥ 0 ∧
      a.backprop t r n ≤ a.tot_backprop r ∧
      a.sum_sent t r n ≥ 0 ∧
      a.broad_sent t r n ≥ 0 ∧
      a.sum_sent t r n ≤ a.tot_size r ∧
      a.broad_sent t r n ≤ a.tot_size r ∧
      a.tot_data_sent t r n ≥ 0

/-- The `(ring, timestep)` pairs for which `make_solver` pins
`rings[r].nodes[0].round == 0` (lines 220-222).  The Python loop variable
`t` leaks out of the preceding `for t in range(1, num_timesteps)` (and,
when that range is empty, out of the neighbor loop), so the pin lands at
timestep `num_timesteps - 1`, not at 0, and is applied for every ring. -/
def roundPins (c : Config) : List (Nat × Nat) :=
  (List.range c.num_rings).map (fun r => (r, c.num_timesteps - 1))

/-- An assignment satisfies every constraint `make_solver` adds: all ticks
(line 214-215), the start-time pin (line 219), the round pins
(lines 221-222, at the leaked timestep `num_timesteps - 1`), the initial
conditions and the global bounds. -/
def makeSolverSat (c : Config) (a : Asn) : Prop :=
  (∀ t, t < c.num_timesteps → 1 ≤ t → tickSat c a t) ∧
  a.time 0 = 0 ∧
  (∀ p ∈ roundPins c, a.round p.2 p.1 0 = 0) ∧
  initSat c a ∧
  boundsSat c a

/-- The neighbor-assignment phase of `make_solver` (lines 208-211), with
Python's exception behavior made explicit: the first edge index outside
`[-len, len)` raises `IndexError` (modelled as `Except.error`), before any
solver query can ever run.  If `num_timesteps = 0` the loop body never
executes, so no edge is ever touched. -/
def setNeighborsAux (c : Config) (m : Nat × Nat → Option (Int × Int)) :
    List ((Int × Int) × (Int × Int)) →
    Except Unit (Nat × Nat → Option (Int × Int))
  | [] => Except.ok m
  | e :: rest =>
      if edgeIndicesOk c e then setNeighborsAux c (applyEdge c m e) rest
      else Except.error ()

/-- See `setNeighborsAux`. -/
def setNeighbors (c : Config) :
    Except Unit (Nat × Nat → Option (Int × Int)) :=
  if c.num_timesteps = 0 then Except.ok (fun _ => none)
  else setNeighborsAux c (fun _ => none) c.neighbors

/-- Whether constructing the model got past the neighbor-assignment phase
without a Python `IndexError`. -/
def buildOk {β : Type} : Except Unit β → Bool
  | Except.ok _ => true
  | Except.error _ => false

/-- True exactly for the four nodes of the default config that share an
uplink bottleneck: (0,0)-(1,0) and (1,1)-(2,1). -/
def isPaired (r n : Nat) : Prop :=
  (r = 0 ∧ n = 0) ∨ (r = 1 ∧ n = 0) ∨ (r = 1 ∧ n = 1) ∨ (r = 2 ∧ n = 1)

instance (r n : Nat) : Decidable (isPaired r n) := by
  unfold isPaired
  infer_instance

/-- A concrete satisfying assignment for the default config.  Every ring
has `tot_size = 6` and `tot_backprop = 100`; every node starts with its
summing phase already complete (`sum_sent = 6`) and broadcasts 2 units
(paired nodes: 1 unit each, splitting the shared link) during the first
tick, which spans 2 time units; the remaining ticks have zero duration
and freeze the state.  Backprop is still far from finished (2 of 100)
while broadcast data is already flowing. -/
def asn7 : Asn :=
  ⟨fun t => if t = 0 then 0 else 2,
   fun _ => 100,
   fun _ => 6,
   fun t _ _ => if t = 0 then 0 else 2,
   fun _ _ _ => 6,
   fun t r n => if t = 0 then 0 else if isPaired r n then 1 else 2,
   fun t r n =>
     if t = 0 then 0
     else if t = 1 then 2
     else if r = 0 then (if n = 0 then 3 else if n = 1 then 1 else 2)
     else if r = 1 then (if n = 0 then 3 else if n = 1 then 2 else 1)
     else (if n = 0 then 2 else if n = 1 then 3 else 1),
   fun t r n =>
     if t = 0 then 0
     else if t = 1 then (if isPaired r n then 1 else 2)
     else 0,
   fun _ _ _ => 0,
   fun _ _ _ => 0⟩

/-- A concrete satisfying assignment for the default config in which every
node is fully done at timestep 0 with `round = -1`, completes the round
during the first (zero-duration) tick, and then idles at `round = 0` with
`sum_backprop_cap` chosen as 0 so nothing further is sent.  All three
rings have `tot_size = tot_backprop = 3`. -/
def asn8 : Asn :=
  ⟨fun _ => 0,
   fun _ => 3,
   fun _ => 3,
   fun t _ _ => if t = 0 then 3 else 0,
   fun t _ _ => if t = 0 then 3 else 0,
   fun t _ _ => if t = 0 then 3 else 0,
   fun _ _ _ => 0,
   fun _ _ _ => 0,
   fun t _ _ => if t = 0 then -1 else 0,
   fun _ _ _ => 0⟩

/-- A config whose only neighbor edge references ring index `-1`: not a
valid ring identifier (outside `[0, num_rings)`), yet accepted by Python
list indexing, which silently wraps it to ring 2. -/
def cfgNegEdge : Config :=
  ⟨5, 3, 3, [((-1, 0), (1, 0))]⟩

/-- A config whose only neighbor edge references ring index 7, outside
Python's accepted range `[-3, 3)` for a 3-ring model. -/
def cfgBigEdge : Config :=
  ⟨5, 3, 3, [((7, 0), (1, 0))]⟩

/-! ### Evaluation of the default topology -/

/-- Projection values of the default config. -/
theorem dcT : defaultConfig.num_timesteps = 5 := rfl

/-- Projection values of the default config. -/
theorem dcR : defaultConfig.num_rings = 3 := rfl

/-- Projection values of the default config. -/
theorem dcN : defaultConfig.num_nodes_per_ring = 3 := rfl

/-- Neighbor of node (0,0) in the default config. -/
theorem nm00 : neighborMap defaultConfig (0, 0) = some (1, 0) := rfl

/-- Node (0,1) has no neighbor in the default config. -/
theorem nm01 : neighborMap defaultConfig (0, 1) = none := rfl

/-- Node (0,2) has no neighbor in the default config. -/
theorem nm02 : neighborMap defaultConfig (0, 2) = none := rfl

/-- Neighbor of node (1,0) in the default config. -/
theorem nm10 : neighborMap defaultConfig (1, 0) = some (0, 0) := rfl

/-- Neighbor of node (1,1) in the default config. -/
theorem nm11 : neighborMap defaultConfig (1, 1) = some (2, 1) := rfl

/-- Node (1,2) has no neighbor in the default config. -/
theorem nm12 : neighborMap defaultConfig (1, 2) = none := rfl

/-- Node (2,0) has no neighbor in the default config. -/
theorem nm20 : neighborMap defaultConfig (2, 0) = none := rfl

/-- Neighbor of node (2,1) in the default config. -/
theorem nm21 : neighborMap defaultConfig (2, 1) = some (1, 1) := rfl

/-- Node (2,2) has no neighbor in the default config. -/
theorem nm22 : neighborMap defaultConfig (2, 2) = none := rfl

/-- Node (0,0) leaves arbitration to its higher-ring partner (1,0). -/
theorem ad00 : arbDuty defaultConfig 0 0 = none := rfl

/-- Node (0,1) emits no arbitration. -/
theorem ad01 : arbDuty defaultConfig 0 1 = none := rfl

/-- Node (0,2) emits no arbitration. -/
theorem ad02 : arbDuty defaultConfig 0 2 = none := rfl

/-- Node (1,0) encodes the shared link with (0,0). -/
theorem ad10 : arbDuty defaultConfig 1 0 = some (0, 0) := rfl

/-- Node (1,1) leaves arbitration to its higher-ring partner (2,1). -/
theorem ad11 : arbDuty defaultConfig 1 1 = none := rfl

/-- Node (1,2) emits no arbitration. -/
theorem ad12 : arbDuty defaultConfig 1 2 = none := rfl

/-- Node (2,0) emits no arbitration. -/
theorem ad20 : arbDuty defaultConfig 2 0 = none := rfl

/-- Node (2,1) encodes the shared link with (1,1). -/
theorem ad21 : arbDuty defaultConfig 2 1 = some (1, 1) := rfl

/-- Node (2,2) emits no arbitration. -/
theorem ad22 : arbDuty defaultConfig 2 2 = none := rfl

/-! ### Concrete satisfying assignments: discharging the constraints -/

set_option maxHeartbeats 1000000 in
/-- `asn7` satisfies the first tick. -/
theorem tick1_asn7 : tickSat defaultConfig asn7 1 := by
  refine ⟨by norm_num [deltaT, asn7], ?_⟩
  intro r hr n hn
  rw [dcR] at hr
  rw [dcN] at hn
  interval_cases r <;> interval_cases n <;>
    (simp only [nodeTickSat, newRound, recvCap, deltaT, prevIdx, asn7, arbSat,
       nm00, nm01, nm02, nm10, nm11, nm12, nm20, nm21, nm22,
       ad00, ad01, ad02, ad10, ad11, ad12, ad20, ad21, ad22,
       dcN, Option.some_ne_none, Option.some.injEq, Prod.mk.injEq,
       isPaired, reduceCtorEq];
     norm_num [min_def, max_def])

set_option maxHeartbeats 1000000 in
/-- `asn7` satisfies the second tick. -/
theorem tick2_asn7 : tickSat defaultConfig asn7 2 := by
  refine ⟨by norm_num [deltaT, asn7], ?_⟩
  intro r hr n hn
  rw [dcR] at hr
  rw [dcN] at hn
  interval_cases r <;> interval_cases n <;>
    (simp only [nodeTickSat, newRound, recvCap, deltaT, prevIdx, asn7, arbSat,
       nm00, nm01, nm02, nm10, nm11, nm12, nm20, nm21, nm22,
       ad00, ad01, ad02, ad10, ad11, ad12, ad20, ad21, ad22,
       dcN, Option.some_ne_none, Option.some.injEq, Prod.mk.injEq,
       isPaired, reduceCtorEq];
     norm_num [min_def, max_def])

set_option maxHeartbeats 1000000 in
/-- `asn7` satisfies the third tick. -/
theorem tick3_asn7 : tickSat defaultConfig asn7 3 := by
  refine ⟨by norm_num [deltaT, asn7], ?_⟩
  intro r hr n hn
  rw [dcR] at hr
  rw [dcN] at hn
  interval_cases r <;> interval_cases n <;>
    (simp only [nodeTickSat, newRound, recvCap, deltaT, prevIdx, asn7, arbSat,
       nm00, nm01, nm02, nm10, nm11, nm12, nm20, nm21, nm22,
       ad00, ad01, ad02, ad10, ad11, ad12, ad20, ad21, ad22,
       dcN, Option.some_ne_none, Option.some.injEq, Prod.mk.injEq,
       isPaired, reduceCtorEq];
     norm_num [min_def, max_def])

set_option maxHeartbeats 1000000 in
/-- `asn7` satisfies the fourth tick. -/
theorem tick4_asn7 : tickSat defaultConfig asn7 4 := by
  refine ⟨by norm_num [deltaT, asn7], ?_⟩
  intro r hr n hn
  rw [dcR] at hr
  rw [dcN] at hn
  interval_cases r <;> interval_cases n <;>
    (simp only [nodeTickSat, newRound, recvCap, deltaT, prevIdx, asn7, arbSat,
       nm00, nm01, nm02, nm10, nm11, nm12, nm20, nm21, nm22,
       ad00, ad01, ad02, ad10, ad11, ad12, ad20, ad21, ad22,
       dcN, Option.some_ne_none, Option.some.injEq, Prod.mk.injEq,
       isPaired, reduceCtorEq];
     norm_num [min_def, max_def])

set_option maxHeartbeats 1000000 in
/-- `asn7` satisfies every constraint `make_solver` adds for the default
config. -/
theorem makeSolverSat_asn7 : makeSolverSat defaultConfig asn7 := by
  refine ⟨?_, rfl, ?_, ?_, ?_⟩
  · intro t ht h1
    rw [dcT] at ht
    interval_cases t
    · exact tick1_asn7
    · exact tick2_asn7
    · exact tick3_asn7
    · exact tick4_asn7
  · intro p hp
    rfl
  · intro r hr n hn
    rw [dcN] at hn
    norm_num [asn7, prevIdx, dcN]
  · intro r hr
    refine ⟨by norm_num [asn7], by norm_num [asn7], ?_⟩
    intro t ht n hn
    simp only [asn7, isPaired]
    split_ifs <;> norm_num

set_option maxHeartbeats 1000000 in
/-- `asn8` satisfies the first tick (the round-completion step). -/
theorem tick1_asn8 : tickSat defaultConfig asn8 1 := by
  refine ⟨by norm_num [deltaT, asn8], ?_⟩
  intro r hr n hn
  rw [dcR] at hr
  rw [dcN] at hn
  interval_cases r <;> interval_cases n <;>
    (simp only [nodeTickSat, newRound, recvCap, deltaT, prevIdx, asn8, arbSat,
       nm00, nm01, nm02, nm10, nm11, nm12, nm20, nm21, nm22,
       ad00, ad01, ad02, ad10, ad11, ad12, ad20, ad21, ad22,
       dcN, Option.some_ne_none, Option.some.injEq, Prod.mk.injEq,
       reduceCtorEq];
     norm_num [min_def, max_def])

set_option maxHeartbeats 1000000 in
/-- `asn8` satisfies the second tick. -/
theorem tick2_asn8 : tickSat defaultConfig asn8 2 := by
  refine ⟨by norm_num [deltaT, asn8], ?_⟩
  intro r hr n hn
  rw [dcR] at hr
  rw [dcN] at hn
  interval_cases r <;> interval_cases n <;>
    (simp only [nodeTickSat, newRound, recvCap, deltaT, prevIdx, asn8, arbSat,
       nm00, nm01, nm02, nm10, nm11, nm12, nm20, nm21, nm22,
       ad00, ad01, ad02, ad10, ad11, ad12, ad20, ad21, ad22,
       dcN, Option.some_ne_none, Option.some.injEq, Prod.mk.injEq,
       reduceCtorEq];
     norm_num [min_def, max_def])

set_option maxHeartbeats 1000000 in
/-- `asn8` satisfies the third tick. -/
theorem tick3_asn8 : tickSat defaultConfig asn8 3 := by
  refine ⟨by norm_num [deltaT, asn8], ?_⟩
  intro r hr n hn
  rw [dcR] at hr
  rw [dcN] at hn
  interval_cases r <;> interval_cases n <;>
    (simp only [nodeTickSat, newRound, recvCap, deltaT, prevIdx, asn8, arbSat,
       nm00, nm01, nm02, nm10, nm11, nm12, nm20, nm21, nm22,
       ad00, ad01, ad02, ad10, ad11, ad12, ad20, ad21, ad22,
       dcN, Option.some_ne_none, Option.some.injEq, Prod.mk.injEq,
       reduceCtorEq];
     norm_num [min_def, max_def])

set_option maxHeartbeats 1000000 in
/-- `asn8` satisfies the fourth tick. -/
theorem tick4_asn8 : tickSat defaultConfig asn8 4 := by
  refine ⟨by norm_num [deltaT, asn8], ?_⟩
  intro r hr n hn
  rw [dcR] at hr
  rw [dcN] at hn
  interval_cases r <;> interval_cases n <;>
    (simp only [nodeTickSat, newRound, recvCap, deltaT, prevIdx, asn8, arbSat,
       nm00, nm01, nm02, nm10, nm11, nm12, nm20, nm21, nm22,
       ad00, ad01, ad02, ad10, ad11, ad12, ad20, ad21, ad22,
       dcN, Option.some_ne_none, Option.some.injEq, Prod.mk.injEq,
       reduceCtorEq];
     norm_num [min_def, max_def])

set_option maxHeartbeats 1000000 in
/-- `asn8` satisfies every constraint `make_solver` adds for the default
config. -/
theorem makeSolverSat_asn8 : makeSolverSat defaultConfig asn8 := by
  refine ⟨?_, rfl, ?_, ?_, ?_⟩
  · intro t ht h1
    rw [dcT] at ht
    interval_cases t
    · exact tick1_asn8
    · exact tick2_asn8
    · exact tick3_asn8
    · exact tick4_asn8
  · intro p hp
    have : p ∈ [((0:Nat), (4:Nat)), (1, 4), (2, 4)] := hp
    fin_cases this <;> rfl
  · intro r hr n hn
    rw [dcN] at hn
    norm_num [asn8, prevIdx, dcN]
  · intro r hr
    refine ⟨by norm_num [asn8], by norm_num [asn8], ?_⟩
    intro t ht n hn
    simp only [asn8]
    split_ifs <;> norm_num

/-! ### Helper lemmas shared across claims -/

/-- The broadcast-gating half that does propagate: at every timestep a
positive `broad_sent` forces `sum_sent = tot_size` (at t = 0 from the
initial condition, later by induction on the phase constraints). -/
theorem broad_pos_sum_full (c : Config) (a : Asn) (h : makeSolverSat c a) :
    ∀ t, t < c.num_timesteps → ∀ r, r < c.num_rings →
    ∀ n, n < c.num_nodes_per_ring →
    0 < a.broad_sent t r n → a.sum_sent t r n = a.tot_size r := by
  obtain ⟨htick, -, -, hinit, hbounds⟩ := h
  intro t
  induction t with
  | zero =>
    intro ht r hr n hn hpos
    exact ((hinit r hr n hn).1 hpos).1
  | succ k ih =>
    intro ht r hr n hn hpos
    have hT := htick (k+1) ht (by omega)
    have hTn := hT.2 r hr n hn
    obtain ⟨-, -, ⟨hphT, hphF⟩, -, -⟩ := hTn
    simp only [Nat.add_sub_cancel] at hphT hphF
    by_cases hnr : newRound a r n k
    · obtain ⟨-, hb0, -⟩ := hphT hnr
      rw [hb0] at hpos
      exact absurd hpos (by norm_num)
    · obtain ⟨hph1, hph2⟩ := hphF hnr
      by_cases hs : a.sum_sent k r n < a.tot_size r
      · obtain ⟨-, -, hbe⟩ := hph1 hs
        rw [hbe] at hpos
        have := ih (by omega) r hr n hn hpos
        exact absurd this (by linarith)
      · obtain ⟨-, -, hse⟩ := hph2 hs
        have hle := ((hbounds r hr).2.2 k (by omega) n hn).2.2.2.2.1
        rw [hse]
        linarith

/-- Rounds never decrease along the run: each tick either keeps `round` or
increments it. -/
theorem round_mono (c : Config) (a : Asn) (h : makeSolverSat c a)
    (r n : Nat) (hr : r < c.num_rings) (hn : n < c.num_nodes_per_ring) :
    ∀ t t', t ≤ t' → t' < c.num_timesteps →
      a.round t r n ≤ a.round t' r n := by
  obtain ⟨htick, -, -, -, -⟩ := h
  intro t t' hle hlt
  induction t' with
  | zero =>
    have : t = 0 := by omega
    rw [this]
  | succ k ih =>
    rcases Nat.lt_or_ge t (k+1) with hc | hc
    · have hstep : a.round k r n ≤ a.round (k+1) r n := by
        have hT := htick (k+1) hlt (by omega)
        have hTn := hT.2 r hr n hn
        obtain ⟨⟨hnrT, hnrF⟩, -, -, -, -⟩ := hTn
        simp only [Nat.add_sub_cancel] at hnrT hnrF
        by_cases hnr : newRound a r n k
        · have := (hnrT hnr).1
          omega
        · have := (hnrF hnr).1
          omega
      have := ih (by omega) (by omega)
      omega
    · have : t = k + 1 := by omega
      rw [this]

/-- If some edge of the list fails the index check, the neighbor-assignment
fold ends in an error, whatever map it starts from. -/
theorem setNeighborsAux_err (c : Config) :
    ∀ (l : List ((Int × Int) × (Int × Int)))
      (m : Nat × Nat → Option (Int × Int)),
      (∃ e ∈ l, edgeIndicesOk c e = false) →
      buildOk (setNeighborsAux c m l) = false := by
  intro l
  induction l with
  | nil =>
    intro m hex
    obtain ⟨e, he, -⟩ := hex
    exact absurd he (List.not_mem_nil e)
  | cons hd tl ih =>
    intro m hex
    by_cases hok : edgeIndicesOk c hd = true
    · have hstep : setNeighborsAux c m (hd :: tl) =
        setNeighborsAux c (applyEdge c m hd) tl := by
        simp [setNeighborsAux, hok]
      rw [hstep]
      obtain ⟨e, he, hbad⟩ := hex
      rcases List.mem_cons.mp he with rfl | htl
      · rw [hok] at hbad
        exact absurd hbad (by norm_num)
      · exact ih (applyEdge c m hd) ⟨e, htl, hbad⟩
    · have hstep : setNeighborsAux c m (hd :: tl) = Except.error () := by
        simp [setNeighborsAux, hok]
      rw [hstep]
      rfl

/-! ### The claims -/

/-- Claim C1: global monotonicity holds in every satisfying assignment of
the base model: at every tick the round counter never decreases, and
whenever the round is unchanged, `backprop`, `sum_sent` and `broad_sent`
are non-decreasing and `ready_to_send`, `tot_data_sent` are non-negative.
Stated over an arbitrary satisfying assignment, this is the same as: the
constraint system extended with the negation of the conjunction is
unsatisfiable. -/
theorem C1_global_monotonicity (c : Config) (a : Asn) (h : makeSolverSat c a)
    (t r n : Nat) (h1 : 1 ≤ t) (ht : t < c.num_timesteps)
    (hr : r < c.num_rings) (hn : n < c.num_nodes_per_ring) :
    a.round (t-1) r n ≤ a.round t r n ∧
    (a.round t r n = a.round (t-1) r n →
      a.backprop (t-1) r n ≤ a.backprop t r n ∧
      a.sum_sent (t-1) r n ≤ a.sum_sent t r n ∧
      a.broad_sent (t-1) r n ≤ a.broad_sent t r n ∧
      0 ≤ a.ready_to_send t r n ∧ 0 ≤ a.tot_data_sent t r n) := by
  obtain ⟨htick, -, -, -, hbounds⟩ := h
  have hT := htick t ht h1
  have hd : deltaT a t ≥ 0 := hT.1
  obtain ⟨⟨hnrT, hnrF⟩, -, ⟨hphT, hphF⟩, -, -⟩ := hT.2 r hr n hn
  have hb1 := (hbounds r hr).2.2 (t-1) (by omega) n hn
  have hb2 := (hbounds r hr).2.2 t ht n hn
  by_cases hnr : newRound a r n (t-1)
  · obtain ⟨he1, -, -⟩ := hnrT hnr
    exact ⟨by omega, fun heq => absurd heq (by omega)⟩
  · obtain ⟨he1, he2⟩ := hnrF hnr
    refine ⟨le_of_eq he1.symm, fun _ => ?_⟩
    obtain ⟨hph1, hph2⟩ := hphF hnr
    refine ⟨?_, ?_, ?_, ?_, hb2.2.2.2.2.2.2⟩
    · rw [he2]
      exact le_min (by linarith) hb1.2.1
    · by_cases hs : a.sum_sent (t-1) r n < a.tot_size r
      · obtain ⟨-, hse, -⟩ := hph1 hs
        rw [hse]
        linarith [hb2.2.2.2.2.2.2]
      · obtain ⟨-, -, hse⟩ := hph2 hs
        rw [hse]
    · by_cases hs : a.sum_sent (t-1) r n < a.tot_size r
      · obtain ⟨-, -, hse⟩ := hph1 hs
        rw [hse]
      · obtain ⟨-, hse, -⟩ := hph2 hs
        rw [hse]
        linarith [hb2.2.2.2.2.2.2]
    · by_cases hs : a.sum_sent (t-1) r n < a.tot_size r
      · obtain ⟨hre, -, -⟩ := hph1 hs
        rw [hre]
        exact le_max_left 0 _
      · obtain ⟨hre, -, -⟩ := hph2 hs
        rw [hre]
        exact le_max_left 0 _

/-- Witness for C1 at the concrete satisfying assignment `asn7`, tick 1,
node (0,0). -/
theorem C1_global_monotonicity_witness :
    makeSolverSat defaultConfig asn7 ∧
    asn7.round 0 0 0 ≤ asn7.round 1 0 0 :=
  ⟨makeSolverSat_asn7,
   (C1_global_monotonicity defaultConfig asn7 makeSolverSat_asn7 1 0 0
      (by decide) (by decide) (by decide) (by decide)).1⟩

/-- Claim C2, counterexample: in the satisfying assignment `asn7` node
(0,1) has `broad_sent = 2 > 0` at timestep 1 while `backprop = 2` is
far from `tot_backprop = 100`, so broadcast progress does not imply
finished computation at timesteps after 0 (the code emits that
implication only at t = 0). -/
theorem C2_counterexample :
    makeSolverSat defaultConfig asn7 ∧
    0 < asn7.broad_sent 1 0 1 ∧
    ¬ (asn7.sum_sent 1 0 1 = asn7.tot_size 0 ∧
       asn7.backprop 1 0 1 = asn7.tot_backprop 0) :=
  ⟨makeSolverSat_asn7, by norm_num [asn7, isPaired], by norm_num [asn7]⟩

/-- Claim C2, amended: in every satisfying assignment, at every timestep,
`broad_sent > 0` implies `sum_sent = tot_size` (this half does propagate
through the ticks); the conjunct `backprop = tot_backprop` is only
guaranteed at timestep 0, where the code asserts it. -/
theorem C2_amended_broadcast_gating (c : Config) (a : Asn)
    (h : makeSolverSat c a) :
    (∀ t, t < c.num_timesteps → ∀ r, r < c.num_rings →
       ∀ n, n < c.num_nodes_per_ring →
       0 < a.broad_sent t r n → a.sum_sent t r n = a.tot_size r) ∧
    (∀ r, r < c.num_rings → ∀ n, n < c.num_nodes_per_ring →
       0 < a.broad_sent 0 r n →
       a.sum_sent 0 r n = a.tot_size r ∧
       a.backprop 0 r n = a.tot_backprop r) := by
  refine ⟨broad_pos_sum_full c a h, ?_⟩
  obtain ⟨-, -, -, hinit, -⟩ := h
  intro r hr n hn hpos
  exact (hinit r hr n hn).1 hpos

/-- Witness for the amended C2 at `asn7`, timestep 1, node (0,1). -/
theorem C2_amended_broadcast_gating_witness :
    makeSolverSat defaultConfig asn7 ∧
    (0 < asn7.broad_sent 1 0 1 → asn7.sum_sent 1 0 1 = asn7.tot_size 0) :=
  ⟨makeSolverSat_asn7,
   (C2_amended_broadcast_gating defaultConfig asn7 makeSolverSat_asn7).1
     1 (by decide) 0 (by decide) 1 (by decide)⟩

/-- Claim C3: the tick constraints force, for every node: if the node was
not fully done at t-1 then the round is unchanged and
`backprop[t] = min(backprop[t-1] + (time[t]-time[t-1]), tot_backprop)`;
and if it was fully done (`new_round`), the round increments and
`backprop[t] = min(time[t]-time[t-1], tot_backprop)`. -/
theorem C3_tick_round_backprop (c : Config) (a : Asn) (t2 r n : Nat)
    (hT : tickSat c a t2) (hr : r < c.num_rings)
    (hn : n < c.num_nodes_per_ring) :
    (¬ newRound a r n (t2-1) →
       a.round t2 r n = a.round (t2-1) r n ∧
       a.backprop t2 r n =
         min (a.backprop (t2-1) r n + (a.time t2 - a.time (t2-1)))
             (a.tot_backprop r)) ∧
    (newRound a r n (t2-1) →
       a.round t2 r n = a.round (t2-1) r n + 1 ∧
       a.backprop t2 r n =
         min (a.time t2 - a.time (t2-1)) (a.tot_backprop r)) := by
  obtain ⟨⟨hnrT, hnrF⟩, -, -, -, -⟩ := hT.2 r hr n hn
  exact ⟨fun hh => hnrF hh, fun hh => ⟨(hnrT hh).1, (hnrT hh).2.1⟩⟩

/-- Witness for C3 at `asn7`, tick 1, node (0,0) (not a new round there). -/
theorem C3_tick_round_backprop_witness :
    tickSat defaultConfig asn7 1 ∧
    asn7.round 1 0 0 = asn7.round 0 0 0 :=
  ⟨tick1_asn7,
   ((C3_tick_round_backprop defaultConfig asn7 1 0 0 tick1_asn7
       (by decide) (by decide)).1 (by norm_num [newRound, asn7])).1⟩

/-- Claim C4, counterexample: with `tot_size = 6`, 3 nodes per ring and a
predecessor that has sent nothing, a node whose round exceeds its
predecessor's by one (`node_round_diff = -1`) gets receive cap
`6/3 + 0 = 2`, not the full model size 6; and a node one round behind
(`node_round_diff = 1`) gets cap `6/3 + 6 = 8`, not zero.  The claim has
the direction of the skew inverted and ignores the `tot_size/n` base
share. -/
theorem C4_counterexample :
    recvCap 6 3 (-1) 0 ≠ 6 ∧ recvCap 6 3 1 0 ≠ 0 := by
  norm_num [recvCap]

/-- Claim C4, amended: if the node is one round behind its ring
predecessor (`node_round_diff = prev - self = 1`), its receive cap is
`tot_size/n + tot_size` (no effective restriction); if it is one round
ahead (`node_round_diff = -1`), the cap is `tot_size/n` (its own share
only, zero receive credit from the predecessor). -/
theorem C4_amended_recv_cap (S p : ℚ) (N : Nat) (d : ℤ) :
    (d = 1 → recvCap S N d p = S / (N : ℚ) + S) ∧
    (d = -1 → recvCap S N d p = S / (N : ℚ)) := by
  constructor <;> (intro hd; subst hd; norm_num [recvCap])

/-- Witness for the amended C4 at concrete values. -/
theorem C4_amended_recv_cap_witness :
    recvCap 6 3 1 0 = 6 / 3 + 6 ∧ recvCap 6 3 (-1) 0 = 6 / 3 :=
  ⟨(C4_amended_recv_cap 6 0 3 1).1 rfl,
   (C4_amended_recv_cap 6 0 3 (-1)).2 rfl⟩

/-- Claim C5: when two nodes share a bottleneck (the higher-ring partner
`(r, n)` encodes the link with `(ro, no)`) and their combined demand does
not fit strictly inside the interval, the arbitration constraints force
the shares to sum to `delta_t`, equal prior cumulative totals force
exactly equal `tot_data_sent`, and whichever party has the strictly
larger prior cumulative total is forced to get the strictly larger share
(`dom_cond` for the duty node, `undom_cond` for its partner). -/
theorem C5_fair_share (c : Config) (a : Asn) (t2 r n ro no : Nat)
    (hr : r < c.num_rings) (hn : n < c.num_nodes_per_ring)
    (hduty : arbDuty c r n = some (ro, no)) (hT : tickSat c a t2)
    (hsat : ¬ (a.ready_to_send t2 r n + a.ready_to_send t2 ro no <
                 deltaT a t2)) :
    (a.sum_sent (t2-1) r n + a.broad_sent (t2-1) r n =
       a.sum_sent (t2-1) ro no + a.broad_sent (t2-1) ro no →
       a.tot_data_sent t2 r n = a.tot_data_sent t2 ro no ∧
       a.tot_data_sent t2 r n + a.tot_data_sent t2 ro no = deltaT a t2) ∧
    (a.sum_sent (t2-1) r n + a.broad_sent (t2-1) r n >
       a.sum_sent (t2-1) ro no + a.broad_sent (t2-1) ro no →
       a.tot_data_sent t2 r n > a.tot_data_sent t2 ro no) ∧
    (a.sum_sent (t2-1) ro no + a.broad_sent (t2-1) ro no >
       a.sum_sent (t2-1) r n + a.broad_sent (t2-1) r n →
       a.tot_data_sent t2 ro no > a.tot_data_sent t2 r n) := by
  have harb := (hT.2 r hr n hn).2.2.2.2 ro no hduty
  have h2 := harb.1.2 hsat
  exact ⟨fun he => ⟨h2.2.2.2.2.2 he, h2.1⟩, fun hd => h2.2.2.2.1 hd,
    fun hu => h2.2.2.2.2.1 hu⟩

/-- Witness for C5 at `asn7`, tick 1, the shared link (1,0)-(0,0): both
parties have prior total 6, demand 2 + 2 saturates the interval of length
2, and both are forced to send exactly 1. -/
theorem C5_fair_share_witness :
    tickSat defaultConfig asn7 1 ∧
    asn7.tot_data_sent 1 1 0 = asn7.tot_data_sent 1 0 0 :=
  ⟨tick1_asn7,
   ((C5_fair_share defaultConfig asn7 1 1 0 0 0 (by decide) (by decide)
       ad10 tick1_asn7 (by norm_num [asn7, deltaT])).1
     (by norm_num [asn7])).1⟩

/-- Claim C6, counterexample: the round pins of the default config are
`[(0,4), (1,4), (2,4)]` — every ring is pinned (three, not at most one),
and at the final timestep 4, not the initial one.  The Python loop
variable `t` leaks into line 222 with value `num_timesteps - 1`. -/
theorem C6_counterexample :
    ¬ ((roundPins defaultConfig).length ≤ 1 ∧
       ∀ p ∈ roundPins defaultConfig, p.2 = 0) := by
  intro hcl
  have h1 := hcl.1
  have h3 : (roundPins defaultConfig).length = 3 := rfl
  omega

/-- Claim C6, amended: `make_solver` pins node 0's round of every ring to
0, and does so at the final timestep `num_timesteps - 1` (the leaked loop
variable), leaving all rounds at timestep 0 unpinned. -/
theorem C6_amended_round_pins (c : Config) (a : Asn) (h : makeSolverSat c a)
    (r : Nat) (hr : r < c.num_rings) :
    a.round (c.num_timesteps - 1) r 0 = 0 :=
  h.2.2.1 (r, c.num_timesteps - 1)
    (List.mem_map.mpr ⟨r, List.mem_range.mpr hr, rfl⟩)

/-- Witness for the amended C6 at `asn7`, ring 0. -/
theorem C6_amended_round_pins_witness :
    makeSolverSat defaultConfig asn7 ∧ asn7.round 4 0 0 = 0 :=
  ⟨makeSolverSat_asn7,
   C6_amended_round_pins defaultConfig asn7 makeSolverSat_asn7 0 (by decide)⟩

/-- Claim C7: the constraint system of the default configuration with no
extra property constraints is satisfiable — `asn7` is a satisfying
assignment. -/
theorem C7_default_satisfiable : ∃ a, makeSolverSat defaultConfig a :=
  ⟨asn7, makeSolverSat_asn7⟩

/-- Claim C8, counterexample: `asn8` satisfies the base model while node
(0,0) has `round = -1 < 0` at timestep 0: no constraint makes rounds
non-negative (only node 0 of each ring is pinned to 0 at the final
timestep). -/
theorem C8_counterexample :
    makeSolverSat defaultConfig asn8 ∧ asn8.round 0 0 0 < 0 :=
  ⟨makeSolverSat_asn8, by norm_num [asn8]⟩

/-- Claim C8, amended: rounds are integers but need not be non-negative;
what the constraints do force is that node 0 of each ring, being pinned to
0 at the final timestep and non-decreasing, has `round ≤ 0` at every
timestep. -/
theorem C8_amended_round_nonpos (c : Config) (a : Asn)
    (h : makeSolverSat c a) (r t : Nat) (hr : r < c.num_rings)
    (ht : t < c.num_timesteps) (hN : 0 < c.num_nodes_per_ring) :
    a.round t r 0 ≤ 0 := by
  have hmono := round_mono c a h r 0 hr hN t (c.num_timesteps - 1)
    (by omega) (by omega)
  have hpin : a.round (c.num_timesteps - 1) r 0 = 0 :=
    h.2.2.1 (r, c.num_timesteps - 1)
      (List.mem_map.mpr ⟨r, List.mem_range.mpr hr, rfl⟩)
  omega

/-- Witness for the amended C8 at `asn8`, ring 0, timestep 0. -/
theorem C8_amended_round_nonpos_witness :
    makeSolverSat defaultConfig asn8 ∧ asn8.round 0 0 0 ≤ 0 :=
  ⟨makeSolverSat_asn8,
   C8_amended_round_nonpos defaultConfig asn8 makeSolverSat_asn8 0 0
     (by decide) (by decide) (by decide)⟩

/-- Claim C9, counterexample: the edge `((-1,0),(1,0))` references ring
index -1, which is not a valid ring identifier (outside `[0, num_rings)`),
yet model construction succeeds without any error: Python list indexing
silently wraps -1 to the last ring.  `make_solver` therefore does not fail
fast on every out-of-range index. -/
theorem C9_counterexample :
    ¬ (0 ≤ (-1 : Int) ∧ (-1 : Int) < (cfgNegEdge.num_rings : Int)) ∧
    ((((-1 : Int), (0 : Int)), ((1 : Int), (0 : Int))) ∈
       cfgNegEdge.neighbors) ∧
    buildOk (setNeighbors cfgNegEdge) = true :=
  ⟨by decide, by decide, by decide⟩

/-- Claim C9, amended: `make_solver` does fail fast — during the
neighbor-assignment loop, before anything is ever handed to the solver —
for every edge index outside Python's accepted range `[-len, len)`;
negative indices inside `[-len, 0)` are silently wrapped instead. -/
theorem C9_amended_fail_fast (c : Config) (hT : 1 ≤ c.num_timesteps)
    (e : (Int × Int) × (Int × Int)) (he : e ∈ c.neighbors)
    (hbad : edgeIndicesOk c e = false) :
    buildOk (setNeighbors c) = false := by
  have haux := setNeighborsAux_err c c.neighbors (fun _ => none)
    ⟨e, he, hbad⟩
  unfold setNeighbors
  rw [if_neg (by omega)]
  exact haux

/-- Witness for the amended C9: an edge referencing ring 7 in a 3-ring
model makes construction fail. -/
theorem C9_amended_fail_fast_witness :
    edgeIndicesOk cfgBigEdge (((7 : Int), (0 : Int)), ((1 : Int), (0 : Int)))
        = false ∧
    buildOk (setNeighbors cfgBigEdge) = false :=
  ⟨by decide,
   C9_amended_fail_fast cfgBigEdge (by decide)
     (((7 : Int), (0 : Int)), ((1 : Int), (0 : Int))) (by decide) (by decide)⟩

/-- Claim C10: whenever a node is fully done at t-1 (`new_round`), the
tick constraints force `time[t] = time[t-1]` (the round increment consumes
no model time) and reset `sum_sent`, `broad_sent` and `ready_to_send` to
exactly 0 at t. -/
theorem C10_new_round_reset (c : Config) (a : Asn) (t2 r n : Nat)
    (hT : tickSat c a t2) (hr : r < c.num_rings)
    (hn : n < c.num_nodes_per_ring) (hnr : newRound a r n (t2-1)) :
    a.time t2 = a.time (t2-1) ∧
    a.sum_sent t2 r n = 0 ∧ a.broad_sent t2 r n = 0 ∧
    a.ready_to_send t2 r n = 0 := by
  obtain ⟨⟨hnrT, -⟩, -, ⟨hphT, -⟩, -, -⟩ := hT.2 r hr n hn
  exact ⟨(hnrT hnr).2.2, (hphT hnr).1, (hphT hnr).2.1, (hphT hnr).2.2⟩

/-- Witness for C10 at `asn8`, tick 1, node (0,0), which is fully done at
timestep 0. -/
theorem C10_new_round_reset_witness :
    tickSat defaultConfig asn8 1 ∧ newRound asn8 0 0 0 ∧
    asn8.sum_sent 1 0 0 = 0 :=
  ⟨tick1_asn8, by norm_num [newRound, asn8],
   (C10_new_round_reset defaultConfig asn8 1 0 0 tick1_asn8
      (by decide) (by decide) (by norm_num [newRound, asn8])).2.1⟩
